import Mathlib

/-!
Verification of the core PDF band-replacement module (`backend/app/pdf_processor.py`)
of the obi-tuke repository, as a shallow embedding in Lean 4.

Python floats are modelled exactly over `ℚ` (every numeric literal and every
arithmetic operation in the embedded fragment is exact in binary-independent
rational arithmetic; the source only multiplies and divides small decimals, so
the rational model is faithful up to float rounding which no claim reaches).
Python `int(x)` is truncation toward zero, `//` is floor division.
External library behaviour (PyMuPDF parsing, PIL decoding/typesetting) is
modelled by explicit parameters, never invented.
-/

namespace ObiTuke

/-- Python `int()` applied to a (rational-modelled) float: truncation toward
zero, i.e. T-division of the reduced numerator by the denominator. -/
def pyInt (q : ℚ) : ℤ := Int.tdiv q.num q.den

/-- Python `//` on integers: floor division. -/
def pyFloorDiv (a b : ℤ) : ℤ := Int.fdiv a b

/-- `self.dpi = 72` set in `PDFProcessor.__init__` (line 17): the PDF standard DPI. -/
def dpi : ℚ := 72

/-- `PDFProcessor.mm_to_points` (lines 19-21): `mm * self.dpi / 25.4`. -/
def mm_to_points (mm : ℚ) : ℚ := mm * dpi / 25.4

/-- `PDFProcessor.points_to_mm` (lines 23-25): `points * 25.4 / self.dpi`. -/
def points_to_mm (points : ℚ) : ℚ := points * 25.4 / dpi

/-- An RGB colour triple. The source passes colours as hex strings that PIL
parses into byte triples; the embedding works at the parsed-triple level. -/
abbrev Color := ℕ × ℕ × ℕ

/-- PIL image modes occurring in the embedded fragment. `RGBA` and `LA` carry an
alpha channel, `RGB` and `L` do not. -/
inductive Mode
  | RGB
  | RGBA
  | LA
  | L
  deriving DecidableEq, Repr

/-- A PIL raster image: its mode, pixel dimensions and per-pixel channel values
(the list length is the channel count of the mode: `[r,g,b]`, `[r,g,b,a]`,
`[l,a]` or `[l]`). -/
structure Image where
  mode : Mode
  width : ℕ
  height : ℕ
  px : ℕ → ℕ → List ℕ

/-- PIL's byte-product with rounding, `MULDIV255` from `Paste.c`:
`tmp = a*b + 128; ((tmp >> 8) + tmp) >> 8`. -/
def muldiv255 (a b : ℕ) : ℕ := ((a * b + 128) / 256 + (a * b + 128)) / 256

/-- One channel of `background.paste(src, mask=alpha)` where the background is
opaque white: blend of white `255` and source value `s` weighted by mask `m`
(PIL `Paste.c` blends each term with `MULDIV255`). -/
def blendOverWhite (m s : ℕ) : ℕ := muldiv255 255 (255 - m) + muldiv255 s m

/-- PIL `convert("RGB")`: drops the alpha channel without any compositing
(an `LA`/`L` luminance value is replicated into the three channels). -/
def convertRGB (img : Image) : Image :=
  match img.mode with
  | Mode.RGB => img
  | Mode.RGBA =>
      { img with mode := Mode.RGB, px := fun x y => (img.px x y).take 3 }
  | Mode.LA =>
      { img with
        mode := Mode.RGB,
        px := fun x y => [(img.px x y).getD 0 0, (img.px x y).getD 0 0, (img.px x y).getD 0 0] }
  | Mode.L =>
      { img with
        mode := Mode.RGB,
        px := fun x y => [(img.px x y).getD 0 0, (img.px x y).getD 0 0, (img.px x y).getD 0 0] }

/-- The normalization step of `PDFProcessor.replace_band_with_uploaded_image`
(lines 160-166): an `RGBA` image is pasted onto an opaque white `RGB`
background with its own alpha band as mask; any other non-`RGB` mode is
converted to `RGB` directly via `convert`. -/
def normalize_uploaded (band_image : Image) : Image :=
  if band_image.mode = Mode.RGBA then
    { mode := Mode.RGB, width := band_image.width, height := band_image.height,
      px := fun x y =>
        [blendOverWhite ((band_image.px x y).getD 3 0) ((band_image.px x y).getD 0 0),
         blendOverWhite ((band_image.px x y).getD 3 0) ((band_image.px x y).getD 1 0),
         blendOverWhite ((band_image.px x y).getD 3 0) ((band_image.px x y).getD 2 0)] }
  else if band_image.mode ≠ Mode.RGB then convertRGB band_image
  else band_image

/-- The specification's §4.3 normalization, following the spec's words for
comparison with `normalize_uploaded`: if the decoded image carries an alpha
channel — in ANY alpha-bearing mode, not only `RGBA` — composite it over an
opaque white background using the alpha as blend weight; otherwise convert to
3-channel opaque. -/
def normalize_uploaded_specModel (img : Image) : Image :=
  match img.mode with
  | Mode.RGBA =>
      { mode := Mode.RGB, width := img.width, height := img.height,
        px := fun x y =>
          [blendOverWhite ((img.px x y).getD 3 0) ((img.px x y).getD 0 0),
           blendOverWhite ((img.px x y).getD 3 0) ((img.px x y).getD 1 0),
           blendOverWhite ((img.px x y).getD 3 0) ((img.px x y).getD 2 0)] }
  | Mode.LA =>
      { mode := Mode.RGB, width := img.width, height := img.height,
        px := fun x y =>
          [blendOverWhite ((img.px x y).getD 1 0) ((img.px x y).getD 0 0),
           blendOverWhite ((img.px x y).getD 1 0) ((img.px x y).getD 0 0),
           blendOverWhite ((img.px x y).getD 1 0) ((img.px x y).getD 0 0)] }
  | _ => convertRGB img

/-- The font handle produced in `create_band_image` (lines 55-60): either the
system truetype font at the computed size, or `ImageFont.load_default()` when
loading the truetype font raises. -/
inductive FontKind
  | system (size : ℕ)
  | default
  deriving DecidableEq, Repr

/-- One `draw.text((x, y), text, fill, font)` call recorded by the embedding. -/
structure DrawTextOp where
  pos : ℤ × ℤ
  text : String
  fill : Color
  font : FontKind
  deriving DecidableEq, Repr

/-- The PIL behaviours external to the repository that `create_band_image`
invokes, as an explicit environment: whether the system truetype font loads
(line 57 raises `OSError` otherwise), the text bounding box
`draw.textbbox((0,0), text, font)` as `(x0, y0, x1, y1)`, and the rasterised
glyph coverage of a `draw.text` call at a given image pixel. -/
structure PILEnv where
  truetypeOk : Bool
  bbox : FontKind → String → ℤ × ℤ × ℤ × ℤ
  glyphAt : DrawTextOp → ℕ → ℕ → Option Color

/-- Truthiness of the Python `Optional[str]` argument `text_content`:
`if text_content:` is false for `None` and for the empty string. -/
def truthyStr : Option String → Bool
  | none => false
  | some s => s ≠ ""

/-- `PDFProcessor.create_band_image` (lines 27-74): a fresh `RGB` image of the
requested pixel size filled with the background colour; when `text_content` is
truthy, the font size is `min(height // 3, 48)`, the system font is tried with
fallback to the default font, the text bounding box is measured and the text is
drawn centred at `((width - text_width) // 2, (height - text_height) // 2)` in
the text colour. Returns the image together with the recorded draw calls. -/
def create_band_image (env : PILEnv) (width height : ℕ)
    (background_color : Color) (text_content : Option String) (text_color : Color) :
    Image × List DrawTextOp :=
  let img : Image :=
    { mode := Mode.RGB, width := width, height := height,
      px := fun _ _ => [background_color.1, background_color.2.1, background_color.2.2] }
  if truthyStr text_content then
    let s := text_content.getD ""
    let font_size := min (height / 3) 48
    let font := if env.truetypeOk then FontKind.system font_size else FontKind.default
    let b := env.bbox font s
    let text_width := b.2.2.1 - b.1
    let text_height := b.2.2.2 - b.2.1
    let x := pyFloorDiv ((width : ℤ) - text_width) 2
    let y := pyFloorDiv ((height : ℤ) - text_height) 2
    let op : DrawTextOp := { pos := (x, y), text := s, fill := text_color, font := font }
    ({ img with
        px := fun i j =>
          match env.glyphAt op i j with
          | some c => [c.1, c.2.1, c.2.2]
          | none => img.px i j },
     [op])
  else
    (img, [])

/-- One page of the parsed document: `page.rect.width` and `page.rect.height`
in the document's native units (points). -/
structure Page where
  width : ℚ
  height : ℚ
  deriving DecidableEq, Repr

/-- The result of `band_image.resize((int(page_width), int(band_height_pt)), LANCZOS)`
(lines 117-120): the source image and the exact target pixel dimensions. The
Lanczos-resampled pixel contents are internal to PIL and no claim mentions
them, so only source and dimensions are recorded. -/
structure Resized where
  src : Image
  w : ℤ
  h : ℤ

/-- The mutation applied to one page in the loop of `replace_band_with_image`
(lines 98-128): the band rectangle (used both for the white `draw_rect` erase
and for `insert_image`), the opaque fill colour `(1,1,1)`, and the resized
band image embedded into the rectangle. -/
structure PageOp where
  rect : ℚ × ℚ × ℚ × ℚ
  fill : ℚ × ℚ × ℚ
  resized : Resized

/-- `PDFProcessor.replace_band_with_image` (lines 76-138). For each page the
band rectangle `fitz.Rect(0, y_offset_pt, page_width, y_offset_pt + band_height_pt)`
is computed from that page's own width, erased with opaque white and overlaid
with the band image resized to `(int(page_width), int(band_height_pt))`.
The `try/finally` guarantees `doc.close()` both on success and when an
exception escapes the loop or serialization, so the second component (whether
the handle was closed before returning) is `true`. -/
def replace_band_with_image (doc : List Page) (band_image : Image)
    (height_mm : ℚ) (y_offset_mm : ℚ) : List PageOp × Bool :=
  (doc.map fun page =>
    let page_width := page.width
    let band_height_pt := mm_to_points height_mm
    let y_offset_pt := mm_to_points y_offset_mm
    let band_rect := (0, y_offset_pt, page_width, y_offset_pt + band_height_pt)
    { rect := band_rect, fill := (1, 1, 1),
      resized := { src := band_image, w := pyInt page_width, h := pyInt band_height_pt } },
   true)

/-- `replace_band_with_uploaded_image` (lines 140-168): decode (modelled by the
already-decoded image argument), normalize, then delegate to
`replace_band_with_image`. -/
def replace_band_with_uploaded_image (doc : List Page) (decoded : Image)
    (height_mm : ℚ) (y_offset_mm : ℚ) : List PageOp × Bool :=
  replace_band_with_image doc (normalize_uploaded decoded) height_mm y_offset_mm

/-- The outcome of `fitz.open(stream=pdf_bytes, filetype="pdf")`: either a
parsed document (its list of pages) or a raised exception with its message. -/
inductive ParseResult
  | ok (doc : List Page)
  | err (msg : String)

/-- Message returned by `validate_pdf` for a zero-page document (line 224). -/
def emptyDocMsg : String := "PDFにページが含まれていません"

/-- Message returned by `validate_pdf` for more than 50 pages (line 227). -/
def tooManyPagesMsg : String := "PDFのページ数が多すぎます（最大50ページ）"

/-- Message returned by `validate_pdf` when parsing raises, with the exception
text interpolated (line 233). -/
def corruptMsg (e : String) : String :=
  "PDFファイルが破損しているか、形式が正しくありません: " ++ e

/-- `PDFProcessor.validate_pdf` (lines 210-233). The `fitz.open` outcome is the
`ParseResult` input. First component: the returned `(bool, message)` pair.
Second component: whether every document handle opened by the call was closed
before returning — the source calls `doc.close()` only on the success path
(line 229), not in the zero-page or too-many-pages early returns; in the
exception branch no handle survives. -/
def validate_pdf (parse : ParseResult) : (Bool × String) × Bool :=
  match parse with
  | ParseResult.err e => ((false, corruptMsg e), true)
  | ParseResult.ok doc =>
      if doc.length = 0 then ((false, emptyDocMsg), false)
      else if doc.length > 50 then ((false, tooManyPagesMsg), false)
      else ((true, ""), true)

/-- Truthiness of the Python `Optional[bytes]` argument `replace_image_bytes`:
`if replace_image_bytes:` is false for `None` and for `b""`. -/
def truthyBytes : Option (List ℕ) → Bool
  | none => false
  | some bs => !bs.isEmpty

/-- `PDFProcessor.process_pdf` (lines 170-208). `decode` models
`Image.open(io.BytesIO(image_bytes))`, returning `none` when PIL raises on
unrecognisable bytes (in which case the call fails with no output, modelled as
`none`). When `replace_image_bytes` is truthy the uploaded-image path runs and
the colour/text arguments are never consulted; otherwise the band image is
generated at `int(mm_to_points(210))` × `int(mm_to_points(height_mm))` pixels
and composited. -/
def process_pdf (env : PILEnv) (decode : List ℕ → Option Image)
    (doc : List Page) (height_mm : ℚ) (y_offset_mm : ℚ)
    (background_color : Color) (text_content : Option String) (text_color : Color)
    (replace_image_bytes : Option (List ℕ)) : Option (List PageOp × Bool) :=
  if truthyBytes replace_image_bytes then
    match decode (replace_image_bytes.getD []) with
    | none => none
    | some decoded =>
        some (replace_band_with_uploaded_image doc decoded height_mm y_offset_mm)
  else
    let temp_width := pyInt (mm_to_points 210)
    let temp_height := pyInt (mm_to_points height_mm)
    let band_image :=
      (create_band_image env temp_width.toNat temp_height.toNat
        background_color text_content text_color).1
    some (replace_band_with_image doc band_image height_mm y_offset_mm)

/-- A concrete PIL environment for witnesses: the system font loads, every text
measures to a 10 × 5 box, no glyph pixel is covered. -/
def envW : PILEnv :=
  { truetypeOk := true, bbox := fun _ _ => (0, 0, 10, 5), glyphAt := fun _ _ _ => none }

/-- A concrete 2 × 2 opaque RGB image for witnesses. -/
def imgW : Image := { mode := Mode.RGB, width := 2, height := 2, px := fun _ _ => [10, 20, 30] }

/-- A concrete decoder for witnesses: every byte string decodes to `imgW`. -/
def decodeW : List ℕ → Option Image := fun _ => some imgW

/-- A page of width `100.7` points: the fractional part `0.7` separates
truncation from rounding. -/
def pageW : Page := { width := 1007 / 10, height := 50 }

/-- A 1 × 1 fully transparent black `LA` image (luminance 0, alpha 0). -/
def exLA : Image := { mode := Mode.LA, width := 1, height := 1, px := fun _ _ => [0, 0] }

/-- A 1 × 1 half-transparent red `RGBA` image (the spec's own test vector:
alpha = 128 over a red fill). -/
def exRGBA : Image :=
  { mode := Mode.RGBA, width := 1, height := 1, px := fun _ _ => [255, 0, 0, 128] }

/-- On nonnegative rationals, Python truncation agrees with the floor. -/
theorem pyInt_eq_floor (q : ℚ) (h : 0 ≤ q) : pyInt q = ⌊q⌋ := by
  unfold pyInt
  rw [Rat.floor_def]
  exact Int.tdiv_eq_ediv (Rat.num_nonneg.mpr h) (Int.ofNat_nonneg q.den)

/-- Claim C7: the unit converters are the exact linear maps
`mm_to_points mm = mm * 72 / 25.4` and `points_to_mm p = p * 25.4 / 72`,
`mm_to_points 25.4 = 72` and `points_to_mm 72 = 25.4` hold exactly, and for
every `x ≥ 0` the round trip `points_to_mm (mm_to_points x)` is within `0.01`
of `x` (in fact it is exact over the rational model). -/
theorem C7_unit_converters :
    (∀ mm : ℚ, mm_to_points mm = mm * 72 / 25.4) ∧
    (∀ p : ℚ, points_to_mm p = p * 25.4 / 72) ∧
    mm_to_points 25.4 = 72 ∧
    points_to_mm 72 = 25.4 ∧
    (∀ x : ℚ, 0 ≤ x → |points_to_mm (mm_to_points x) - x| ≤ 1 / 100) := by
  refine ⟨fun mm => rfl, fun p => rfl, by norm_num [mm_to_points, dpi],
    by norm_num [points_to_mm, dpi], fun x _ => ?_⟩
  have h : points_to_mm (mm_to_points x) = x := by
    unfold points_to_mm mm_to_points dpi
    ring
  rw [h]
  simp

/-- Witness for C7 at the concrete input `x = 3`. -/
theorem C7_unit_converters_witness :
    (0 : ℚ) ≤ 3 ∧ |points_to_mm (mm_to_points 3) - 3| ≤ 1 / 100 :=
  ⟨by norm_num, C7_unit_converters.2.2.2.2 3 (by norm_num)⟩

/-- Claim C1: `validate_pdf` returns `(false, empty-document reason)` on a
zero-page document, `(false, too-many-pages reason)` when the page count
exceeds 50, `(false, corrupt-or-unsupported reason)` when the bytes cannot be
parsed, and `(true, "")` otherwise; in particular a 50-page document is
accepted. -/
theorem C1_validate_pdf (d : List Page) (e : String) :
    (validate_pdf (ParseResult.ok d)).1 =
      (if d.length = 0 then (false, emptyDocMsg)
       else if 50 < d.length then (false, tooManyPagesMsg)
       else (true, "")) ∧
    (validate_pdf (ParseResult.err e)).1 = (false, corruptMsg e) ∧
    (validate_pdf (ParseResult.ok (List.replicate 50 pageW))).1 = (true, "") := by
  refine ⟨?_, rfl, by decide⟩
  simp only [validate_pdf]
  split_ifs <;> rfl

/-- Claim C2: when `replace_image_bytes` is present (a non-empty byte string)
`process_pdf` derives the band image from those bytes through the uploaded
image normalization, and the colour/text arguments have no effect; otherwise
the band image is generated by `create_band_image` at the A4 reference width
`int(mm_to_points 210) = 595` pixels and height `int(mm_to_points height_mm)`
pixels, before delegating to `replace_band_with_image`. -/
theorem C2_process_pdf_dispatch (env : PILEnv) (decode : List ℕ → Option Image)
    (doc : List Page) (height_mm y_offset_mm : ℚ)
    (bg bg' tc tc' : Color) (txt txt' : Option String)
    (bs : List ℕ) (hbs : bs ≠ []) :
    (process_pdf env decode doc height_mm y_offset_mm bg txt tc (some bs) =
       process_pdf env decode doc height_mm y_offset_mm bg' txt' tc' (some bs)) ∧
    (process_pdf env decode doc height_mm y_offset_mm bg txt tc (some bs) =
       Option.map
         (fun d => replace_band_with_image doc (normalize_uploaded d) height_mm y_offset_mm)
         (decode bs)) ∧
    pyInt (mm_to_points 210) = 595 ∧
    (process_pdf env decode doc height_mm y_offset_mm bg txt tc none =
       some (replace_band_with_image doc
         ((create_band_image env (pyInt (mm_to_points 210)).toNat
             (pyInt (mm_to_points height_mm)).toNat bg txt tc).1)
         height_mm y_offset_mm)) := by
  have ht : truthyBytes (some bs) = true := by
    simp [truthyBytes, hbs]
  have h210 : pyInt (mm_to_points 210) = 595 := by
    rw [pyInt_eq_floor _ (by norm_num [mm_to_points, dpi])]
    norm_num [mm_to_points, dpi]
  refine ⟨?_, ?_, h210, rfl⟩
  · simp [process_pdf, ht]
  · cases hdec : decode bs <;>
      simp [process_pdf, ht, hdec, replace_band_with_uploaded_image]

/-- Witness for C2 at a concrete non-empty upload. -/
theorem C2_process_pdf_dispatch_witness :
    (process_pdf envW decodeW [pageW] 20 0 (0, 0, 0) none (1, 1, 1) (some [7]) =
       process_pdf envW decodeW [pageW] 20 0 (9, 9, 9) (some "x") (2, 2, 2) (some [7])) ∧
    (process_pdf envW decodeW [pageW] 20 0 (0, 0, 0) none (1, 1, 1) (some [7]) =
       Option.map (fun d => replace_band_with_image [pageW] (normalize_uploaded d) 20 0)
         (decodeW [7])) ∧
    pyInt (mm_to_points 210) = 595 ∧
    (process_pdf envW decodeW [pageW] 20 0 (0, 0, 0) none (1, 1, 1) none =
       some (replace_band_with_image [pageW]
         ((create_band_image envW (pyInt (mm_to_points 210)).toNat
             (pyInt (mm_to_points 20)).toNat (0, 0, 0) none (1, 1, 1)).1) 20 0)) :=
  C2_process_pdf_dispatch envW decodeW [pageW] 20 0 (0, 0, 0) (9, 9, 9) (1, 1, 1) (2, 2, 2)
    none (some "x") [7] (by decide)

/-- Claim C3: in `replace_band_with_image` every page's band rectangle is
exactly `(0, mm_to_points y_offset_mm, pageWidth, mm_to_points y_offset_mm +
mm_to_points height_mm)` computed from that page's own width with no clamping
against the page height, while offset, height and the band image are shared
across pages. -/
theorem C3_band_rect (doc : List Page) (img : Image) (height_mm y_offset_mm : ℚ)
    (i : ℕ) (hi : i < doc.length) :
    ∃ hi' : i < (replace_band_with_image doc img height_mm y_offset_mm).1.length,
      ((replace_band_with_image doc img height_mm y_offset_mm).1.get ⟨i, hi'⟩).rect =
        (0, mm_to_points y_offset_mm, (doc.get ⟨i, hi⟩).width,
         mm_to_points y_offset_mm + mm_to_points height_mm) ∧
      ((replace_band_with_image doc img height_mm y_offset_mm).1.get ⟨i, hi'⟩).resized.src
        = img := by
  have hlen : (replace_band_with_image doc img height_mm y_offset_mm).1.length
      = doc.length := by
    simp [replace_band_with_image]
  refine ⟨hlen ▸ hi, ?_, ?_⟩ <;>
    simp [replace_band_with_image, List.getElem_map]

/-- Witness for C3: the single page of a one-page document, with a band taller
than the page (height 20 mm on a 50-point-tall page starting at offset 30 mm:
the rectangle bottom `30·72/25.4 + 20·72/25.4 ≈ 141.7` exceeds the page height
and is used unchanged). -/
theorem C3_band_rect_witness :
    ∃ hi' : 0 < (replace_band_with_image [pageW] imgW 20 30).1.length,
      ((replace_band_with_image [pageW] imgW 20 30).1.get ⟨0, hi'⟩).rect =
        (0, mm_to_points 30, (([pageW] : List Page).get ⟨0, by decide⟩).width,
         mm_to_points 30 + mm_to_points 20) ∧
      ((replace_band_with_image [pageW] imgW 20 30).1.get ⟨0, hi'⟩).resized.src = imgW :=
  C3_band_rect [pageW] imgW 20 30 0 (by decide)

/-- Claim C4 fails on the code: the resize dimensions are computed with Python
`int()` (truncation), not rounding. On a page of width `100.7` with
`height_mm = 20` (band height `56.69…` points) the code resizes to
`(100, 56)` while rounding would give `(101, 57)`. -/
theorem C4_resize_rounding_counterexample :
    ((replace_band_with_image [pageW] imgW 20 0).1.map
        fun op => (op.resized.w, op.resized.h)) = [(100, 56)] ∧
    round ((1007 : ℚ) / 10) = (101 : ℤ) ∧
    round (mm_to_points 20) = (57 : ℤ) ∧
    ((100 : ℤ), (56 : ℤ)) ≠ ((101 : ℤ), (57 : ℤ)) := by
  refine ⟨?_, ?_, ?_, by decide⟩
  · have hw : pyInt ((1007 : ℚ) / 10) = 100 := by
      rw [pyInt_eq_floor _ (by norm_num)]
      norm_num
    have hh : pyInt (mm_to_points 20) = 56 := by
      rw [pyInt_eq_floor _ (by norm_num [mm_to_points, dpi])]
      norm_num [mm_to_points, dpi]
    simp [replace_band_with_image, pageW, hw, hh]
  · rw [round_eq]
    norm_num
  · rw [round_eq]
    unfold mm_to_points dpi
    norm_num

/-- Claim C4 amended: for every page the band image is resized to exactly
`(int(pageWidth), int(bandHeightUnits))` pixels — truncation toward zero, not
rounding — before being encoded and embedded at the band rectangle. -/
theorem C4_resize_dims (doc : List Page) (img : Image) (height_mm y_offset_mm : ℚ)
    (i : ℕ) (hi : i < doc.length) :
    ∃ hi' : i < (replace_band_with_image doc img height_mm y_offset_mm).1.length,
      ((replace_band_with_image doc img height_mm y_offset_mm).1.get ⟨i, hi'⟩).resized.w
        = pyInt (doc.get ⟨i, hi⟩).width ∧
      ((replace_band_with_image doc img height_mm y_offset_mm).1.get ⟨i, hi'⟩).resized.h
        = pyInt (mm_to_points height_mm) := by
  have hlen : (replace_band_with_image doc img height_mm y_offset_mm).1.length
      = doc.length := by
    simp [replace_band_with_image]
  refine ⟨hlen ▸ hi, ?_, ?_⟩ <;>
    simp [replace_band_with_image, List.getElem_map]

/-- Witness for C4's amended statement on the concrete one-page document. -/
theorem C4_resize_dims_witness :
    ∃ hi' : 0 < (replace_band_with_image [pageW] imgW 20 0).1.length,
      ((replace_band_with_image [pageW] imgW 20 0).1.get ⟨0, hi'⟩).resized.w
        = pyInt (([pageW] : List Page).get ⟨0, by decide⟩).width ∧
      ((replace_band_with_image [pageW] imgW 20 0).1.get ⟨0, hi'⟩).resized.h
        = pyInt (mm_to_points 20) :=
  C4_resize_dims [pageW] imgW 20 0 0 (by decide)

/-- Claim C5 fails on the code: white-compositing of transparency happens only
for `RGBA`-mode inputs. A fully transparent black `LA` image (an alpha-bearing
mode) is converted to RGB black `[0,0,0]` by the code, whereas compositing its
alpha over opaque white — what the claim demands for every alpha-bearing
mode, and what `normalize_uploaded_specModel` does — yields white
`[255,255,255]`. -/
theorem C5_alpha_counterexample :
    (normalize_uploaded exLA).mode = Mode.RGB ∧
    (normalize_uploaded exLA).px 0 0 = [0, 0, 0] ∧
    (normalize_uploaded_specModel exLA).px 0 0 = [255, 255, 255] ∧
    ¬ (normalize_uploaded exLA).px 0 0 = (normalize_uploaded_specModel exLA).px 0 0 := by
  refine ⟨rfl, rfl, by decide, by decide⟩

/-- Claim C5 amended: normalization always yields a 3-channel opaque RGB image
of unchanged dimensions; alpha is composited over opaque white only when the
decoded mode is `RGBA` (translucent pixels then blend toward white), while
every other mode — including the alpha-bearing `LA` — is converted directly to
RGB, discarding its alpha without white blending. -/
theorem C5_normalize_uploaded (img : Image) :
    (normalize_uploaded img).mode = Mode.RGB ∧
    (normalize_uploaded img).width = img.width ∧
    (normalize_uploaded img).height = img.height ∧
    (img.mode = Mode.RGBA → ∀ x y,
      (normalize_uploaded img).px x y =
        [blendOverWhite ((img.px x y).getD 3 0) ((img.px x y).getD 0 0),
         blendOverWhite ((img.px x y).getD 3 0) ((img.px x y).getD 1 0),
         blendOverWhite ((img.px x y).getD 3 0) ((img.px x y).getD 2 0)]) ∧
    (img.mode = Mode.LA → ∀ x y,
      (normalize_uploaded img).px x y =
        [(img.px x y).getD 0 0, (img.px x y).getD 0 0, (img.px x y).getD 0 0]) := by
  cases himg : img.mode <;>
    simp [normalize_uploaded, convertRGB, himg]

/-- Witness for C5's amended statement: the spec's own test vector, a 1 × 1
half-transparent red `RGBA` pixel, normalizes to the deterministic blend
`[255, 127, 127]` toward white. -/
theorem C5_normalize_uploaded_witness :
    (normalize_uploaded exRGBA).px 0 0 = [255, 127, 127] := by
  have h := ((C5_normalize_uploaded exRGBA).2.2.2.1 rfl 0 0)
  rw [h]
  decide

/-- Claim C6 is right but the code violates it: `validate_pdf` returns from
its zero-page and too-many-pages failure branches without calling
`doc.close()` (only the success path closes the handle), while
`replace_band_with_image` does close on every exit path via `try/finally`. -/
theorem C6_handle_release (doc : List Page) (img : Image) (h y : ℚ) :
    validate_pdf (ParseResult.ok []) = ((false, emptyDocMsg), false) ∧
    validate_pdf (ParseResult.ok (List.replicate 51 pageW)) =
      ((false, tooManyPagesMsg), false) ∧
    (replace_band_with_image doc img h y).2 = true := by
  exact ⟨rfl, by decide, rfl⟩

/-- Claim C8: `create_band_image` always returns an image of exactly the
requested pixel dimensions with a 3-channel opaque RGB mode, whether or not
text was drawn, and with no (truthy) text every pixel equals the background
colour. -/
theorem C8_create_band_image (env : PILEnv) (w h : ℕ) (bg tc : Color)
    (txt : Option String) :
    ((create_band_image env w h bg txt tc).1.width = w ∧
     (create_band_image env w h bg txt tc).1.height = h ∧
     (create_band_image env w h bg txt tc).1.mode = Mode.RGB) ∧
    (truthyStr txt = false → ∀ x y,
      (create_band_image env w h bg txt tc).1.px x y = [bg.1, bg.2.1, bg.2.2]) := by
  constructor
  · by_cases ht : truthyStr txt = true <;>
      simp [create_band_image, ht]
  · intro ht x y
    simp [create_band_image, ht]

/-- Witness for C8 with no text: a 4 × 3 solid colour band. -/
theorem C8_create_band_image_witness :
    ((create_band_image envW 4 3 (1, 2, 3) none (0, 0, 0)).1.width = 4 ∧
     (create_band_image envW 4 3 (1, 2, 3) none (0, 0, 0)).1.height = 3 ∧
     (create_band_image envW 4 3 (1, 2, 3) none (0, 0, 0)).1.mode = Mode.RGB) ∧
    (create_band_image envW 4 3 (1, 2, 3) none (0, 0, 0)).1.px 0 0 = [1, 2, 3] :=
  ⟨(C8_create_band_image envW 4 3 (1, 2, 3) (0, 0, 0) none).1,
   (C8_create_band_image envW 4 3 (1, 2, 3) (0, 0, 0) none).2 (by decide) 0 0⟩

/-- Claim C9: for every non-empty text, `create_band_image` computes the font
size as `min(height // 3, 48)`, falls back to the default font without failing
when the truetype font cannot be loaded, measures the text bounding box with
the chosen font, and draws the text in the text colour at
`((width - text_width) // 2, (height - text_height) // 2)` (floor division). -/
theorem C9_text_drawing (env : PILEnv) (w h : ℕ) (bg tc : Color) (s : String)
    (hs : s ≠ "") :
    (create_band_image env w h bg (some s) tc).2 =
      [{ pos :=
           (pyFloorDiv ((w : ℤ) -
              ((env.bbox (if env.truetypeOk then FontKind.system (min (h / 3) 48)
                          else FontKind.default) s).2.2.1 -
               (env.bbox (if env.truetypeOk then FontKind.system (min (h / 3) 48)
                          else FontKind.default) s).1)) 2,
            pyFloorDiv ((h : ℤ) -
              ((env.bbox (if env.truetypeOk then FontKind.system (min (h / 3) 48)
                          else FontKind.default) s).2.2.2 -
               (env.bbox (if env.truetypeOk then FontKind.system (min (h / 3) 48)
                          else FontKind.default) s).2.1)) 2),
         text := s, fill := tc,
         font := if env.truetypeOk then FontKind.system (min (h / 3) 48)
                 else FontKind.default }] := by
  have ht : truthyStr (some s) = true := by
    simp [truthyStr, hs]
  simp [create_band_image, ht]

/-- Witness for C9: text `"x"` on a 100 × 30 band under `envW` (truetype
loads, bbox `(0,0,10,5)`): one draw call at `((100-10)//2, (30-5)//2) =
(45, 12)` with font size `min(30 // 3, 48) = 10`. -/
theorem C9_text_drawing_witness :
    (create_band_image envW 100 30 (1, 1, 1) (some "x") (7, 8, 9)).2 =
      [{ pos :=
           (pyFloorDiv ((100 : ℤ) -
              ((envW.bbox (if envW.truetypeOk then FontKind.system (min (30 / 3) 48)
                           else FontKind.default) "x").2.2.1 -
               (envW.bbox (if envW.truetypeOk then FontKind.system (min (30 / 3) 48)
                           else FontKind.default) "x").1)) 2,
            pyFloorDiv ((30 : ℤ) -
              ((envW.bbox (if envW.truetypeOk then FontKind.system (min (30 / 3) 48)
                           else FontKind.default) "x").2.2.2 -
               (envW.bbox (if envW.truetypeOk then FontKind.system (min (30 / 3) 48)
                           else FontKind.default) "x").2.1)) 2),
         text := "x", fill := (7, 8, 9),
         font := if envW.truetypeOk then FontKind.system (min (30 / 3) 48)
                 else FontKind.default }] :=
  C9_text_drawing envW 100 30 (1, 1, 1) (7, 8, 9) "x" (by decide)

/-- Claim C10: calling `process_pdf` with `replace_image_bytes` equal to the
empty byte string takes the generated-band branch — the result equals the same
call with no replacement image, and no decode failure occurs (the result is
always `some`). -/
theorem C10_empty_upload (env : PILEnv) (decode : List ℕ → Option Image)
    (doc : List Page) (height_mm y_offset_mm : ℚ) (bg tc : Color)
    (txt : Option String) :
    process_pdf env decode doc height_mm y_offset_mm bg txt tc (some []) =
      process_pdf env decode doc height_mm y_offset_mm bg txt tc none ∧
    (process_pdf env decode doc height_mm y_offset_mm bg txt tc (some [])).isSome
      = true := by
  exact ⟨rfl, rfl⟩

end ObiTuke
